import Mathlib

/-!
Verification of the notte agent control core against its specification.

Source of the embedding:
- `src/packages/notte-agent/src/notte_agent/common/safe_executor.py`
  (`ExecutionStatus`, `SafeActionExecutor`, `StepExecutionFailure`,
  `MaxConsecutiveFailuresError`)
- `src/src/notte/agents/falco/agent.py` (`FalcoAgent`: `precheck_action`,
  `invalid_action_id_handler`, `step`, `run`, `_run`,
  `_get_valid_action_set`, `_is_first_step`)
- `src/packages/notte-core/src/notte_core/browser/observation.py`
  (`Observation.valid_action_set`)

The Python code is asynchronous but strictly sequential (one await at a
time), so every external call — the operation `func`, `env.observe()`, the
LLM call, the completion validator — is embedded as an explicit oracle
argument carrying the value that call produced.  Python exceptions are
embedded as explicit outcome constructors of the result types; machine
state mutated on `self` (the consecutive-failure counter, the conversation
buffer, the trajectory) is threaded explicitly.
-/

/-- Exception taxonomy seen by `SafeActionExecutor.execute`
(safe_executor.py lines 101-118).  `invalidActionID` is the
`InvalidActionIDError` subclass of `NotteBaseError` raised by
`precheck_action`; it is kept as a separate constructor because the
failure-handler dict in the Falco agent dispatches on the exact runtime
type (`type(e)`, safe_executor.py line 71).  Each `NotteBaseError` carries
an agent-facing and a developer-facing message. -/
inductive PyErr where
  | rateLimit (msg : String)
  | invalidActionID (agent_message : String) (dev_message : String)
  | notteBase (agent_message : String) (dev_message : String)
  | validationError (detail : String)
  | otherExc (msg : String)
deriving DecidableEq, Repr

/-- `ExecutionStatus` (safe_executor.py lines 14-19): the uniform result
envelope for one attempted operation. -/
structure ExecutionStatus (S T : Type) where
  input : S
  output : Option T
  success : Bool
  message : String
  should_rerun_step_agent : Bool := false
deriving DecidableEq, Repr

/-- Result of one `execute` call: either a returned `ExecutionStatus`, or
one of the two exceptions `on_failure` can raise
(`MaxConsecutiveFailuresError`, safe_executor.py line 76, and
`StepExecutionFailure`, line 78). -/
inductive ExecOutcome (S T : Type) where
  | returned (status : ExecutionStatus S T)
  | raisedMaxConsecutiveFailures (max_failures : Nat)
  | raisedStepExecutionFailure (msg : String)
deriving DecidableEq, Repr

/-- `SafeActionExecutor` state (safe_executor.py lines 50-63).  The
operation `func` and `precheck_func` are external effectful calls whose
outcomes are supplied to `execute` as oracle arguments; the handler dict
is embedded as a partial map from the raised error to the side effect it
performs on the ambient handler state `C` (for the Falco agent, the
conversation buffer). -/
structure SafeActionExecutor (C : Type) where
  on_failure_handlers : PyErr → Option (C → C)
  max_consecutive_failures : Nat
  consecutive_failures : Nat
  raise_on_failure : Bool

/-- Message classification performed by the `except` clauses of `execute`
(safe_executor.py lines 101-118).  `RateLimitError` is caught first with a
fixed retry message; any other `NotteBaseError` (including
`InvalidActionIDError`) uses its developer message when
`raise_on_failure` is set and its agent message otherwise (line 105);
pydantic `ValidationError` gets the schema message; anything else the
generic unexpected-error message. -/
def errMessage (raise_on_failure : Bool) : PyErr → String
  | .rateLimit _ => "Rate limit reached. Waiting before retry."
  | .invalidActionID a d => if raise_on_failure then d else a
  | .notteBase a d => if raise_on_failure then d else a
  | .validationError s =>
      "JSON Schema Validation error: The output format is invalid. " ++
      "Please ensure your response follows the expected schema. Details: " ++ s
  | .otherExc m => "An unexpected error occurred: " ++ m

/-- `SafeActionExecutor.on_failure` (safe_executor.py lines 68-85):
increment the counter, invoke the handler registered for the exact error
type (side effect on `C`), then raise `MaxConsecutiveFailuresError` if the
ceiling is reached, else raise `StepExecutionFailure` when
`raise_on_failure` is set, else return the failure status with
`should_rerun_step_agent = (consecutive_failures <= max_consecutive_failures)`
evaluated after the increment (line 84). -/
def SafeActionExecutor.on_failure {S T C : Type} (ex : SafeActionExecutor C)
    (conv : C) (input_data : S) (error_msg : String) (e : PyErr) :
    SafeActionExecutor C × C × ExecOutcome S T :=
  let ex' : SafeActionExecutor C :=
    { ex with consecutive_failures := ex.consecutive_failures + 1 }
  let conv' : C :=
    match ex'.on_failure_handlers e with
    | some handler => handler conv
    | none => conv
  if ex'.consecutive_failures ≥ ex'.max_consecutive_failures then
    (ex', conv', ExecOutcome.raisedMaxConsecutiveFailures ex'.max_consecutive_failures)
  else if ex'.raise_on_failure then
    (ex', conv', ExecOutcome.raisedStepExecutionFailure error_msg)
  else
    (ex', conv', ExecOutcome.returned
      { input := input_data
        output := none
        success := false
        message := error_msg
        should_rerun_step_agent :=
          decide (ex'.consecutive_failures ≤ ex'.max_consecutive_failures) })

/-- `SafeActionExecutor.execute` (safe_executor.py lines 89-118).
`precheckOutcome` is the oracle for the configured precheck call
(`some e` when that call raised `e`, `none` when it raised nothing — which
also covers the case of no precheck being configured), `opOutcome` the
oracle for `await self.func(input_data)`.  `showInput` models Python
`str(input_data)` used in the success message (line 99).  On success the
counter is reset to 0 (line 94); every exception is routed through
`on_failure` with the message classified by `errMessage`. -/
def SafeActionExecutor.execute {S T C : Type} (ex : SafeActionExecutor C)
    (conv : C) (showInput : S → String) (input_data : S)
    (precheckOutcome : Option PyErr) (opOutcome : Except PyErr T) :
    SafeActionExecutor C × C × ExecOutcome S T :=
  match precheckOutcome with
  | some e => ex.on_failure conv input_data (errMessage ex.raise_on_failure e) e
  | none =>
    match opOutcome with
    | Except.error e => ex.on_failure conv input_data (errMessage ex.raise_on_failure e) e
    | Except.ok result =>
      ({ ex with consecutive_failures := 0 }, conv,
        ExecOutcome.returned
          { input := input_data
            output := some result
            success := true
            message := "Successfully executed action with input: " ++ showInput input_data })

/-- Claim C2: whenever a failure (precheck or operation) brings the
consecutive-failure counter to the configured ceiling
`max_consecutive_failures`, `execute` raises
`MaxConsecutiveFailuresError`; the outcome is the raised fatal error — in
particular it is never a returned `ExecutionStatus` — and this holds for
an arbitrary `raise_on_failure` field, so the raise is independent of
that setting. -/
theorem execute_max_failures_raises_unconditionally {S T C : Type}
    (ex : SafeActionExecutor C) (conv : C) (showInput : S → String)
    (input_data : S) (precheckOutcome : Option PyErr)
    (opOutcome : Except PyErr T) (e : PyErr)
    (hfail : precheckOutcome = some e ∨
      (precheckOutcome = none ∧ opOutcome = Except.error e))
    (hceil : ex.max_consecutive_failures ≤ ex.consecutive_failures + 1) :
    (ex.execute conv showInput input_data precheckOutcome opOutcome).2.2 =
      ExecOutcome.raisedMaxConsecutiveFailures ex.max_consecutive_failures := by
  rcases hfail with h | ⟨h1, h2⟩
  · subst h
    simp [SafeActionExecutor.execute, SafeActionExecutor.on_failure, hceil]
  · subst h1; subst h2
    simp [SafeActionExecutor.execute, SafeActionExecutor.on_failure, hceil]

/-- Concrete executor used by the C2 witness: two failures already
recorded, ceiling 3, strict raise policy. -/
def witExecStrict : SafeActionExecutor (List String) :=
  { on_failure_handlers := fun _ => none
    max_consecutive_failures := 3
    consecutive_failures := 2
    raise_on_failure := true }

/-- Witness for C2: a concrete executor two failures away from a ceiling
of 3, with `raise_on_failure = true`, still sees the fatal raise (not a
`StepExecutionFailure`) on its third consecutive failure. -/
theorem execute_max_failures_raises_unconditionally_witness :
    ((some (PyErr.otherExc "boom") = some (PyErr.otherExc "boom") ∨
      (some (PyErr.otherExc "boom") = none ∧
        (Except.error (PyErr.otherExc "boom") : Except PyErr Nat) =
          Except.error (PyErr.otherExc "boom"))) ∧
      witExecStrict.max_consecutive_failures ≤
        witExecStrict.consecutive_failures + 1) ∧
    ((witExecStrict.execute (T := Nat) [] (fun s => s) "click B1"
        (some (PyErr.otherExc "boom"))
        (Except.error (PyErr.otherExc "boom"))).2.2 =
      ExecOutcome.raisedMaxConsecutiveFailures
        witExecStrict.max_consecutive_failures) :=
  ⟨⟨Or.inl rfl, by decide⟩,
    execute_max_failures_raises_unconditionally
      witExecStrict [] (fun s => s) "click B1" (some (PyErr.otherExc "boom"))
      (Except.error (PyErr.otherExc "boom")) (PyErr.otherExc "boom")
      (Or.inl rfl) (by decide)⟩

/-- Claim C3: envelope invariant of every `ExecutionStatus` that
`execute` returns — a successful status carries an output, a failure
status (which is only ever returned when `raise_on_failure` is false;
otherwise failures raise) carries no output, and the rerun flag is only
ever set on a failure status. -/
theorem execute_status_envelope_invariant {S T C : Type}
    (ex : SafeActionExecutor C) (conv : C) (showInput : S → String)
    (input_data : S) (precheckOutcome : Option PyErr)
    (opOutcome : Except PyErr T) (st : ExecutionStatus S T)
    (h : (ex.execute conv showInput input_data precheckOutcome opOutcome).2.2 =
      ExecOutcome.returned st) :
    (st.success = true → st.output.isSome = true) ∧
    (st.success = false → st.output = none) ∧
    (st.should_rerun_step_agent = true → st.success = false) := by
  rcases precheckOutcome with _ | e
  · rcases opOutcome with e | result
    · simp only [SafeActionExecutor.execute, SafeActionExecutor.on_failure] at h
      split at h
      · exact absurd h (by simp)
      · split at h
        · exact absurd h (by simp)
        · simp only [ExecOutcome.returned.injEq] at h
          subst h
          refine ⟨by intro hs; simp at hs, by intro _; rfl, by intro _; rfl⟩
    · simp only [SafeActionExecutor.execute, ExecOutcome.returned.injEq] at h
      subst h
      refine ⟨by intro _; rfl, by intro hs; simp at hs, by intro hr; simp at hr⟩
  · simp only [SafeActionExecutor.execute, SafeActionExecutor.on_failure] at h
    split at h
    · exact absurd h (by simp)
    · split at h
      · exact absurd h (by simp)
      · simp only [ExecOutcome.returned.injEq] at h
        subst h
        refine ⟨by intro hs; simp at hs, by intro _; rfl, by intro _; rfl⟩

/-- Concrete lenient executor used by the C3 and C5 witnesses: fresh
counter, ceiling 3, `raise_on_failure = false`, no handlers. -/
def witExecLenient : SafeActionExecutor (List String) :=
  { on_failure_handlers := fun _ => none
    max_consecutive_failures := 3
    consecutive_failures := 0
    raise_on_failure := false }

/-- Status that `witExecLenient` returns on an unexpected-error failure
of the operation. -/
def witFailStatus : ExecutionStatus String Nat :=
  { input := "click B1"
    output := none
    success := false
    message := "An unexpected error occurred: boom"
    should_rerun_step_agent := true }

/-- Witness for C3: a failing operation on a lenient executor returns a
status, and that status satisfies the envelope invariant. -/
theorem execute_status_envelope_invariant_witness :
    ((witExecLenient.execute [] (fun s => s) "click B1" none
        (Except.error (PyErr.otherExc "boom"))).2.2 =
      ExecOutcome.returned witFailStatus) ∧
    ((witFailStatus.success = true → witFailStatus.output.isSome = true) ∧
      (witFailStatus.success = false → witFailStatus.output = none) ∧
      (witFailStatus.should_rerun_step_agent = true →
        witFailStatus.success = false)) :=
  ⟨by decide,
    execute_status_envelope_invariant
      witExecLenient [] (fun s => s) "click B1" none
      (Except.error (PyErr.otherExc "boom")) witFailStatus (by decide)⟩

/-- Claim C4: a successful `execute` call (precheck raised nothing and the
operation returned a result) resets `consecutive_failures` to 0 and
returns the success status.  The executor is arbitrary, so in particular
its counter may hold any value produced by any prior interleaving of
failed and successful executions. -/
theorem execute_success_resets_consecutive_failures {S T C : Type}
    (ex : SafeActionExecutor C) (conv : C) (showInput : S → String)
    (input_data : S) (result : T) :
    (ex.execute conv showInput input_data none (Except.ok result)).1.consecutive_failures = 0 ∧
    (ex.execute conv showInput input_data none (Except.ok result)).2.2 =
      ExecOutcome.returned
        { input := input_data
          output := some result
          success := true
          message := "Successfully executed action with input: " ++ showInput input_data } :=
  ⟨rfl, rfl⟩

/-- Claim C5: a recoverable failure (counter after increment still below
the fatal ceiling) on an executor with `raise_on_failure = false` returns
exactly the status
`{success := false, output := none, message := classified message,
should_rerun := post-increment counter <= ceiling}`, and the stored
counter is the post-increment value. -/
theorem execute_recoverable_failure_status_exact {S T C : Type}
    (ex : SafeActionExecutor C) (conv : C) (showInput : S → String)
    (input_data : S) (precheckOutcome : Option PyErr)
    (opOutcome : Except PyErr T) (e : PyErr)
    (hfail : precheckOutcome = some e ∨
      (precheckOutcome = none ∧ opOutcome = Except.error e))
    (hceil : ex.consecutive_failures + 1 < ex.max_consecutive_failures)
    (hraise : ex.raise_on_failure = false) :
    (ex.execute conv showInput input_data precheckOutcome opOutcome).2.2 =
      ExecOutcome.returned
        { input := input_data
          output := none
          success := false
          message := errMessage false e
          should_rerun_step_agent :=
            decide (ex.consecutive_failures + 1 ≤ ex.max_consecutive_failures) } ∧
    (ex.execute conv showInput input_data precheckOutcome opOutcome).1.consecutive_failures =
      ex.consecutive_failures + 1 := by
  have hnot : ¬ ex.max_consecutive_failures ≤ ex.consecutive_failures + 1 :=
    not_le_of_lt hceil
  rcases hfail with h | ⟨h1, h2⟩
  · subst h
    constructor
    · simp [SafeActionExecutor.execute, SafeActionExecutor.on_failure, hnot, hraise]
    · simp [SafeActionExecutor.execute, SafeActionExecutor.on_failure, hnot, hraise]
  · subst h1; subst h2
    constructor
    · simp [SafeActionExecutor.execute, SafeActionExecutor.on_failure, hnot, hraise]
    · simp [SafeActionExecutor.execute, SafeActionExecutor.on_failure, hnot, hraise]

/-- Status claimed by the C5 witness: the exact envelope for a
rate-limit failure on `witExecLenient`. -/
def witRateLimitStatus : ExecutionStatus String Nat :=
  { input := "scrape"
    output := none
    success := false
    message := errMessage false (PyErr.rateLimit "429")
    should_rerun_step_agent :=
      decide (witExecLenient.consecutive_failures + 1 ≤
        witExecLenient.max_consecutive_failures) }

/-- Witness for C5: a rate-limited operation on a fresh lenient executor
with ceiling 3 yields the exact classified failure status with
`should_rerun = true` and counter 1. -/
theorem execute_recoverable_failure_status_exact_witness :
    ((none = some (PyErr.rateLimit "429") ∨
      ((none : Option PyErr) = none ∧
        (Except.error (PyErr.rateLimit "429") : Except PyErr Nat) =
          Except.error (PyErr.rateLimit "429"))) ∧
      witExecLenient.consecutive_failures + 1 <
        witExecLenient.max_consecutive_failures ∧
      witExecLenient.raise_on_failure = false) ∧
    ((witExecLenient.execute [] (fun s => s) "scrape" none
        (Except.error (PyErr.rateLimit "429"))).2.2 =
      ExecOutcome.returned witRateLimitStatus) :=
  ⟨⟨Or.inr ⟨rfl, rfl⟩, by decide, rfl⟩,
    (execute_recoverable_failure_status_exact
      witExecLenient [] (fun s => s) "scrape" none
      (Except.error (PyErr.rateLimit "429")) (PyErr.rateLimit "429")
      (Or.inr ⟨rfl, rfl⟩) (by decide) rfl).1⟩

/-- `CompletionAction` (notte controller actions; its class body is not
under `src/`).  Modelled from the spec: the completion decision carries a
success flag and the final answer (section 4.2, CHECK_COMPLETION). -/
structure CompletionAction where
  success : Bool
  answer : String
deriving DecidableEq, Repr

/-- `BaseAction` values that appear as `ExecutionStatus.input` in the
trajectory: ordinary interaction actions identified by their action id,
the `FallbackObserveAction` synthesised by `FalcoAgent.step` (agent.py
line 262), and the `CompletionAction` recorded by `FalcoAgent._run`
(agent.py line 321).  Only the `id` of interaction actions is inspected
by the verified code paths; the ids of the other two variants are
modelled (their classes are not under `src/`). -/
inductive BaseAction where
  | interaction (id : String)
  | fallbackObserve
  | completion (c : CompletionAction)
deriving DecidableEq, Repr

/-- Action id (`action.id`, agent.py line 121 and observation.py
line 58). -/
def BaseAction.id : BaseAction → String
  | .interaction i => i
  | .fallbackObserve => "fallback_observe"
  | .completion _ => "completion"

/-- Models Python `str(action)` as used in the success message of
`execute` (safe_executor.py line 99); its exact rendering is irrelevant
to every claim, only that the same rendering appears on both sides of
the equations. -/
def showBaseAction (a : BaseAction) : String := a.id

/-- `BaseActionSpace` as consumed by the verified code: its `actions`
method takes a category string (always called with "all") and returns
the listed actions, each carrying an `id`.  An instance of this pydantic
model is always truthy, and a bound method object (`space.actions`
without a call) is always truthy as well — both truthiness tests in the
sources therefore reduce to the `None` checks made explicit here. -/
structure BaseActionSpace where
  actions : String → List BaseAction

/-- `SnapshotMetadata` of the current page; only carried, never
inspected, by the verified code paths. -/
structure SnapshotMetadata where
  url : String
deriving DecidableEq, Repr

/-- `Observation` (observation.py lines 18-29): snapshot metadata,
optional screenshot, optional action space, optional scraped data,
optional progress.  The screenshot/data/progress payloads are carried as
plain placeholders since no verified code path inspects their
contents. -/
structure Observation where
  metadata : SnapshotMetadata
  screenshot : Option String := none
  space : Option BaseActionSpace := none
  data : Option String := none
  progress : Option (Nat × Nat) := none

/-- A Python `set[str]` built by iterated `add`, embedded as its
insertion-ordered list of distinct elements: `setAdd` is a no-op when
the element is already present. -/
def setAdd (s : List String) (x : String) : List String :=
  if x ∈ s then s else s ++ [x]

/-- `Observation.valid_action_set` (observation.py lines 54-59): if the
space is present (`self.space is not None and self.space.actions` — the
second conjunct tests a bound method and is always true), add the id of
every action of `space.actions("all")` to a fresh set. -/
def Observation.valid_action_set (o : Observation) : List String :=
  match o.space with
  | none => []
  | some sp => (sp.actions "all").foldl (fun s a => setAdd s a.id) []

/-- `FalcoAgent._get_valid_action_set` (agent.py lines 335-340): same
construction, guarded by `if last_obs and last_obs.space and
last_obs.space.actions`.  `last_obs` is the (possibly `None`) result of
`trajectory.last_obs()`; a present `Observation` instance is always
truthy, so the first conjunct is exactly the `None` check. -/
def FalcoAgent.get_valid_action_set (last_obs : Option Observation) : List String :=
  match last_obs with
  | none => []
  | some o =>
    match o.space with
    | none => []
    | some sp => (sp.actions "all").foldl (fun s a => setAdd s a.id) []

/-- Claim C10: on every `Observation`, the agent-local helper
`FalcoAgent._get_valid_action_set` builds exactly the same set of action
identifiers as `Observation.valid_action_set` — element for element in
the same insertion order, hence equal as Python sets. -/
theorem get_valid_action_set_eq_valid_action_set (o : Observation) :
    FalcoAgent.get_valid_action_set (some o) = o.valid_action_set := rfl

/-- A message of the conversation buffer. -/
inductive Msg where
  | system (content : String)
  | user (content : String)
  | assistant (content : String)
deriving DecidableEq, Repr

/-- Modelled from the spec: `Conversation` (notte.common.tools.conversation,
not under `src/`), section 4.4 — an ordered message list; messages are
appended in order.  The token-budget autosizing pass (eviction of oldest
non-system messages) is not modelled because no verified claim depends on
eviction, only on appends. -/
structure Conversation where
  messages : List Msg
deriving DecidableEq, Repr

/-- `add_user_message` appends a user message (spec section 4.4). -/
def Conversation.add_user_message (c : Conversation) (content : String) : Conversation :=
  ⟨c.messages ++ [Msg.user content]⟩

/-- `StepAgentOutput` (notte.agents.falco.types, not under `src/`).
Modelled from the spec: one structured decision containing zero-or-more
candidate actions and/or a completion signal (section 4.2, REASON). -/
structure StepAgentOutput where
  output : Option CompletionAction
  actions : List BaseAction
deriving DecidableEq, Repr

/-- `StepAgentOutput.get_actions(max_actions_per_step)` — modelled from
the spec: the candidate actions in order, bounded by
`maxActionsPerStep` (section 4.2, EXECUTE). -/
def StepAgentOutput.get_actions (r : StepAgentOutput) (max_actions : Nat) : List BaseAction :=
  r.actions.take max_actions

/-- Execution status stored in the Falco trajectory. -/
def FalcoStatus : Type := ExecutionStatus BaseAction Observation

/-- One trajectory step: a reasoning output plus the ordered results
recorded under it (spec section 3, `Step`).  `agent_response` is optional
only so that `add_step` is total on an empty trajectory, a state no
composed run reaches. -/
structure AgentStep where
  agent_response : Option StepAgentOutput
  results : List FalcoStatus

/-- Modelled from the spec: `FalcoTrajectoryHistory`
(notte.agents.falco.trajectory_history, not under `src/`), sections 3 and
4.3 — an append-only ordered sequence of steps with a configured maximum
error length. -/
structure FalcoTrajectoryHistory where
  steps : List AgentStep
  max_error_length : Nat

/-- `add_output(reasoningOutput)` — modelled from the spec: append a new
step holding the reasoning output (section 4.3); its results arrive via
subsequent `add_step` calls (agent.py lines 238 and 252). -/
def FalcoTrajectoryHistory.add_output (t : FalcoTrajectoryHistory)
    (response : StepAgentOutput) : FalcoTrajectoryHistory :=
  { t with steps := t.steps ++ [⟨some response, []⟩] }

/-- Append a result to the last step of the list, starting a fresh step
when the list is empty. -/
def appendToLast (result : FalcoStatus) : List AgentStep → List AgentStep
  | [] => [⟨none, [result]⟩]
  | [s] => [{ s with results := s.results ++ [result] }]
  | s :: rest => s :: appendToLast result rest

/-- `add_step(executionStatus)` — modelled from the spec: append the
execution status to the current (most recent) step (section 4.3). -/
def FalcoTrajectoryHistory.add_step (t : FalcoTrajectoryHistory)
    (result : FalcoStatus) : FalcoTrajectoryHistory :=
  { t with steps := appendToLast result t.steps }

/-- All recorded results, in trajectory order. -/
def resultsOf : List AgentStep → List FalcoStatus
  | [] => []
  | s :: rest => s.results ++ resultsOf rest

/-- The most recently recorded result, if any. -/
def FalcoTrajectoryHistory.last_result (t : FalcoTrajectoryHistory) : Option FalcoStatus :=
  (resultsOf t.steps).getLast?

/-- `last_obs()` — modelled from the spec: the output of the most recent
result that succeeded and produced an observation, or none
(section 4.3, `lastObservation`). -/
def FalcoTrajectoryHistory.last_obs (t : FalcoTrajectoryHistory) : Option Observation :=
  (resultsOf t.steps).foldl
    (fun acc r => if r.success && r.output.isSome then r.output else acc) none

/-- `FalcoAgent._is_first_step` (agent.py lines 342-343): the trajectory
holds exactly one step — the one just opened by `add_output` for the
current reasoning output. -/
def FalcoAgent.is_first_step (t : FalcoTrajectoryHistory) : Bool :=
  t.steps.length == 1

/-- Modelled from the spec: `InvalidActionIDError`
(notte.errors.actions, not under `src/`) — the invalid-action error
raised by `precheck_action`, a `NotteBaseError` whose agent message is
the corrective text naming the invalid id and the currently valid ids
(section 4.2, VALIDATE_ACTION, and section 7, InvalidAction). -/
def InvalidActionIDError (action_id : String) (available_actions : List String) : PyErr :=
  PyErr.invalidActionID
    ("Action with id " ++ action_id ++ " is invalid. Valid action ids are: " ++
      String.intercalate ", " available_actions ++ ". Provide a valid action id and try again.")
    ("Invalid action id: " ++ action_id)

/-- Body of `precheck_action` (agent.py lines 118-122): on every step
except the very first, the candidate action id must belong to the valid
action set of the last valid observation, otherwise
`InvalidActionIDError` is raised.  The returned `Option PyErr` is what
the body would contribute as `precheckOutcome` if it were actually run
to completion. -/
def FalcoAgent.precheck_action (traj : FalcoTrajectoryHistory)
    (action : BaseAction) : Option PyErr :=
  if !FalcoAgent.is_first_step traj then
    let valid_action_set := FalcoAgent.get_valid_action_set traj.last_obs
    if action.id ∉ valid_action_set then
      some (InvalidActionIDError action.id valid_action_set)
    else none
  else none

/-- What the `precheck_func` call actually contributes at runtime:
`precheck_action` is declared `async def` (agent.py line 118), but
`SafeActionExecutor.execute` invokes `self.precheck_func(input_data)`
without `await` (safe_executor.py lines 91-92).  Calling an `async def`
only creates a coroutine object; the body never runs, so the call never
raises, for every trajectory and every action. -/
def FalcoAgent.precheck_action_unawaited (_traj : FalcoTrajectoryHistory)
    (_action : BaseAction) : Option PyErr := none

/-- `invalid_action_id_handler` registration (agent.py lines 124-126 and
146): the handler dict maps exactly the `InvalidActionIDError` runtime
type to a handler appending the error agent message to the conversation
as a user message. -/
def falco_on_failure_handlers : PyErr → Option (Conversation → Conversation)
  | PyErr.invalidActionID agent_message _ =>
      some (fun conv => conv.add_user_message agent_message)
  | _ => none

/-- The Falco step executor (agent.py lines 143-149):
`raise_on_failure = (raise_condition is IMMEDIATELY)`,
`max_consecutive_failures` from the config, counter starting at the
given value. -/
def falcoExecutor (max_consecutive_failures : Nat) (raise_on_failure : Bool)
    (consecutive_failures : Nat) : SafeActionExecutor Conversation :=
  { on_failure_handlers := falco_on_failure_handlers
    max_consecutive_failures := max_consecutive_failures
    consecutive_failures := consecutive_failures
    raise_on_failure := raise_on_failure }

/-- Concrete failing input for claim C1: the last valid observation
exposes exactly one action id, `B1`. -/
def cexObsB1 : Observation :=
  { metadata := ⟨"https://example.com"⟩
    space := some ⟨fun _ => [BaseAction.interaction "B1"]⟩ }

/-- Fresh observation returned by the environment when the operation is
(wrongly) run on the invalid action. -/
def cexObsFresh : Observation :=
  { metadata := ⟨"https://example.com/after"⟩ }

/-- A reasoning output; its contents are irrelevant to the precheck. -/
def cexResponse : StepAgentOutput :=
  ⟨none, [BaseAction.interaction "B1"]⟩

/-- Trajectory at the failing input: one completed step whose result
succeeded with `cexObsB1`, plus the step just opened by `add_output` for
the current reasoning output — so `_is_first_step` is false and
`last_obs` is `cexObsB1`. -/
def cexTraj : FalcoTrajectoryHistory :=
  { steps :=
      [⟨some cexResponse,
        [{ input := BaseAction.interaction "B1"
           output := some cexObsB1
           success := true
           message := "ok"
           should_rerun_step_agent := false }]⟩,
       ⟨some cexResponse, []⟩]
    max_error_length := 500 }

/-- The invalid candidate action of the failing input: id `X99`, not in
the valid set `{B1}`. -/
def cexAction : BaseAction := BaseAction.interaction "X99"

/-- Conversation at the failing input. -/
def cexConv : Conversation := ⟨[]⟩

/-- The error `precheck_action` is supposed to raise at the failing
input. -/
def cexErr : PyErr := InvalidActionIDError "X99" ["B1"]

/-- Its corrective agent message. -/
def cexAgentMsg : String := errMessage false cexErr

/-- Claim C1 (code bug, evaluated at the failing input).  First
conjunct: the body of `precheck_action` classifies the candidate action
as an invalid-action error, exactly as the claim demands.  Second
conjunct: what the code actually does — because `precheck_action` is an
`async def` called without `await` (safe_executor.py line 92), the
precheck contributes nothing (`precheck_action_unawaited`), so `execute`
runs the operation on the invalid action and returns a success status:
the conversation receives no corrective message, the handler is never
invoked, and no `should_rerun` signal is produced.  Third conjunct: had
the precheck body actually run (its result fed to `execute` as the claim
and spec intend), `execute` would not run the operation, the registered
handler would append the corrective message to the conversation, and the
returned status would be a failure with `should_rerun_step_agent =
true`. -/
theorem precheck_async_never_runs_at_failing_input :
    FalcoAgent.precheck_action cexTraj cexAction = some cexErr ∧
    (falcoExecutor 3 false 0).execute cexConv showBaseAction cexAction
        (FalcoAgent.precheck_action_unawaited cexTraj cexAction)
        (Except.ok cexObsFresh) =
      (falcoExecutor 3 false 0, cexConv,
        ExecOutcome.returned
          { input := cexAction
            output := some cexObsFresh
            success := true
            message := "Successfully executed action with input: " ++
              showBaseAction cexAction }) ∧
    (falcoExecutor 3 false 0).execute cexConv showBaseAction cexAction
        (FalcoAgent.precheck_action cexTraj cexAction)
        (Except.ok cexObsFresh) =
      (falcoExecutor 3 false 1, cexConv.add_user_message cexAgentMsg,
        ExecOutcome.returned
          { input := cexAction
            output := none
            success := false
            message := cexAgentMsg
            should_rerun_step_agent := true }) :=
  ⟨rfl, rfl, rfl⟩

/-- Agent state mutated during `FalcoAgent.step`: the conversation
buffer, the trajectory and the step executor (agent.py lines 109-149). -/
structure FalcoState where
  conv : Conversation
  trajectory : FalcoTrajectoryHistory
  step_executor : SafeActionExecutor Conversation

/-- One `await self.step_executor.execute(action)` call as seen by the
loop body of `FalcoAgent.step`: from the current conversation, executor
state and action it produces the updated executor, updated conversation
and the call outcome.  The composed agent instantiates every call with
`SafeActionExecutor.execute`; keeping it a parameter makes the loop a
faithful translation of the loop body alone. -/
def ExecCall : Type :=
  Conversation → SafeActionExecutor Conversation → BaseAction →
    SafeActionExecutor Conversation × Conversation ×
      ExecOutcome BaseAction Observation

/-- How one `FalcoAgent.step` invocation ends (agent.py lines 225-273):
with a completion decision handed to `_run`, with the recursive
step-agent rerun of line 250, normally with `None`, or by an exception
propagating out of the executor. -/
inductive StepResult where
  | completion (c : CompletionAction)
  | rerunStep
  | noCompletion
  | raisedMaxFailures (max_failures : Nat)
  | raisedStepFailure (msg : String)
deriving DecidableEq, Repr

/-- The `for action in response.get_actions(...)` loop of
`FalcoAgent.step` (agent.py lines 244-273).  `failObs` is the oracle for
the `await self.env.observe()` call of the failure branch (line 257);
`exs k` is the executor call used for the k-th action.  Per iteration:
execute the action; a raised exception propagates; on
`should_rerun_step_agent` the whole step is rerun without touching the
trajectory (line 250); otherwise the result is recorded, and if it is a
failure the agent re-observes, records the observation as a synthetic
successful step under a fresh copy of the reasoning output (lines
256-268) and breaks out of the loop. -/
def stepExecuteActions (response : StepAgentOutput) (failObs : Observation)
    (exs : Nat → ExecCall) : Nat → FalcoState → List BaseAction →
    FalcoState × StepResult
  | _, st, [] => (st, StepResult.noCompletion)
  | k, st, action :: rest =>
    match exs k st.conv st.step_executor action with
    | (ex', conv', ExecOutcome.raisedMaxConsecutiveFailures m) =>
      ({ st with step_executor := ex', conv := conv' },
        StepResult.raisedMaxFailures m)
    | (ex', conv', ExecOutcome.raisedStepExecutionFailure msg) =>
      ({ st with step_executor := ex', conv := conv' },
        StepResult.raisedStepFailure msg)
    | (ex', conv', ExecOutcome.returned result) =>
      let st' : FalcoState := { st with step_executor := ex', conv := conv' }
      if result.should_rerun_step_agent then
        (st', StepResult.rerunStep)
      else
        let st'' : FalcoState :=
          { st' with trajectory := st'.trajectory.add_step result }
        if !result.success then
          let ex_status : FalcoStatus :=
            { input := BaseAction.fallbackObserve
              output := some failObs
              success := true
              message := "Observed"
              should_rerun_step_agent := false }
          ({ st'' with trajectory :=
              (st''.trajectory.add_output response).add_step ex_status },
            StepResult.noCompletion)
        else
          stepExecuteActions response failObs exs (k + 1) st'' rest

/-- `FalcoAgent.step` after the LLM call produced `response` (agent.py
lines 238-273): record the reasoning output, short-circuit on a
completion decision, otherwise run the bounded action loop. -/
def stepAfterResponse (max_actions_per_step : Nat) (response : StepAgentOutput)
    (failObs : Observation) (exs : Nat → ExecCall) (st : FalcoState) :
    FalcoState × StepResult :=
  let st' : FalcoState :=
    { st with trajectory := st.trajectory.add_output response }
  match response.output with
  | some c => (st', StepResult.completion c)
  | none =>
    stepExecuteActions response failObs exs 0 st'
      (response.get_actions max_actions_per_step)

/-- Claim C6: in the action loop of `FalcoAgent.step`, when an executed
action's result is a failure that does not signal
`should_rerun_step_agent`, the loop records that failure, takes a fresh
observation (`failObs`), records it as a synthetic successful step —
input `FallbackObserveAction`, `success = true`, output the observation —
and stops: the result does not depend on the remaining candidate
actions `rest`. -/
theorem step_failure_records_fallback_observation
    (response : StepAgentOutput) (failObs : Observation)
    (exs : Nat → ExecCall) (k : Nat) (st : FalcoState)
    (action : BaseAction) (rest : List BaseAction)
    (ex' : SafeActionExecutor Conversation) (conv' : Conversation)
    (result : FalcoStatus)
    (hcall : exs k st.conv st.step_executor action =
      (ex', conv', ExecOutcome.returned result))
    (hfail : result.success = false)
    (hnorerun : result.should_rerun_step_agent = false) :
    stepExecuteActions response failObs exs k st (action :: rest) =
      ({ conv := conv'
         trajectory :=
           ((st.trajectory.add_step result).add_output response).add_step
             { input := BaseAction.fallbackObserve
               output := some failObs
               success := true
               message := "Observed"
               should_rerun_step_agent := false }
         step_executor := ex' },
        StepResult.noCompletion) := by
  simp only [stepExecuteActions, hcall, hnorerun, hfail, Bool.false_eq_true,
    if_false, Bool.not_false, if_true]

/-- Concrete executor call used by the C6 witness: it returns a failure
status with the rerun flag clear. -/
def witFailCall : ExecCall :=
  fun conv ex _ =>
    (ex, conv, ExecOutcome.returned
      { input := BaseAction.interaction "B1"
        output := none
        success := false
        message := "element not found"
        should_rerun_step_agent := false })

/-- Concrete agent state used by the C6 witness. -/
def witState : FalcoState :=
  { conv := ⟨[]⟩
    trajectory := ⟨[⟨some cexResponse, []⟩], 500⟩
    step_executor := falcoExecutor 3 false 0 }

/-- Witness for C6: at a concrete state and a concrete executor call
returning a non-rerun failure, the loop ends with the synthetic
observation step recorded. -/
theorem step_failure_records_fallback_observation_witness :
    (witFailCall witState.conv witState.step_executor
        (BaseAction.interaction "B1") =
      (witState.step_executor, witState.conv, ExecOutcome.returned
        { input := BaseAction.interaction "B1"
          output := none
          success := false
          message := "element not found"
          should_rerun_step_agent := false }) ∧
      (false : Bool) = false) ∧
    stepExecuteActions cexResponse cexObsFresh (fun _ => witFailCall) 0
        witState
        [BaseAction.interaction "B1", BaseAction.interaction "B2"] =
      ({ conv := witState.conv
         trajectory :=
           ((witState.trajectory.add_step
              { input := BaseAction.interaction "B1"
                output := none
                success := false
                message := "element not found"
                should_rerun_step_agent := false }).add_output
              cexResponse).add_step
             { input := BaseAction.fallbackObserve
               output := some cexObsFresh
               success := true
               message := "Observed"
               should_rerun_step_agent := false }
         step_executor := witState.step_executor },
        StepResult.noCompletion) :=
  ⟨⟨rfl, rfl⟩,
    step_failure_records_fallback_observation cexResponse cexObsFresh
      (fun _ => witFailCall) 0 witState (BaseAction.interaction "B1")
      [BaseAction.interaction "B2"] witState.step_executor witState.conv
      { input := BaseAction.interaction "B1"
        output := none
        success := false
        message := "element not found"
        should_rerun_step_agent := false }
      rfl rfl rfl⟩

/-- `RaiseCondition` (config.py lines 14-22). -/
inductive RaiseCondition where
  | immediately
  | retry
  | never
deriving DecidableEq, Repr

/-- An exception propagating out of `FalcoAgent._run` and caught by the
`except Exception` of `FalcoAgent.run` (agent.py lines 282-285): the two
executor raises, or any other runtime exception carried as its
description. -/
inductive PyRaised where
  | maxFailures (n : Nat)
  | stepFailure (msg : String)
  | otherRaised (msg : String)
deriving DecidableEq, Repr

/-- Python `str(e)` for the exceptions above; the two executor errors
carry the message built by their constructors (safe_executor.py lines
29-45). -/
def PyRaised.describe : PyRaised → String
  | .maxFailures n =>
      "Max consecutive failures reached in a single step: " ++ toString n ++ "."
  | .stepFailure m => m
  | .otherRaised m => m

/-- Effect of one `await self.step(task)` call inside `_run`: it either
returns a completion decision (or `None`) leaving the agent in some
state, or raises, leaving the agent in some state. -/
inductive StepCallEffect where
  | ret (st : FalcoState) (out : Option CompletionAction)
  | raisedDuring (st : FalcoState) (e : PyRaised)

/-- Oracle for one iteration of the `_run` loop: the effect of the step
call, and — consulted only when the decision reports success — the
verdict of `self.validator.validate(task, output, ...)` (agent.py
line 310), given by its `is_valid` flag and `reason`. -/
structure RunIterOracle where
  stepCall : StepCallEffect
  val_is_valid : Bool
  val_reason : String

/-- `AgentResponse` as far as the verified claims inspect it: the
answer, the success flag, the recorded agent trajectory and the
conversation messages (agent.py lines 157-166; the environment
trajectory, wall-clock duration and LLM usage are external values). -/
structure AgentResponse where
  answer : String
  success : Bool
  agent_trajectory : List AgentStep
  messages : List Msg

/-- `FalcoAgent.output` (agent.py lines 157-166). -/
def FalcoAgent.output (st : FalcoState) (answer : String) (success : Bool) :
    AgentResponse :=
  { answer := answer
    success := success
    agent_trajectory := st.trajectory.steps
    messages := st.conv.messages }

/-- Result of `_run` / `run`: a returned response or a propagating
exception together with the agent state at that moment. -/
inductive RunOutcome where
  | response (r : AgentResponse)
  | raised (st : FalcoState) (e : PyRaised)

/-- The failed-validation trajectory entry appended by `_run` (agent.py
lines 316-326) and the state carrying it. -/
def validationFailState (st : FalcoState) (c : CompletionAction)
    (reason : String) : FalcoState :=
  { st with trajectory :=
      st.trajectory.add_step {
        input := BaseAction.completion c
        output := none
        success := false
        message := "Final validation failed: " ++ reason ++ ". Continuing..."
        should_rerun_step_agent := false } }

/-- The standard step-budget failure message of `_run` (agent.py
line 328). -/
def budgetMsg (max_steps : Nat) : String :=
  "Failed to solve task in " ++ toString max_steps ++ " steps"

/-- The `for step in range(self.env.config.max_steps)` loop of
`FalcoAgent._run` (agent.py lines 296-331), with `fuel` the number of
remaining iterations and `k` the index of the current one.  Per
iteration: run the step; `None` means continue; a failure decision ends
the run immediately as failed with the decision answer (lines 304-306);
a success decision is validated — if valid the run ends as succeeded
with the decision answer (lines 311-313), otherwise the validation
failure is appended to the trajectory and the loop continues (lines
314-326).  When the budget is exhausted the run ends as failed with the
standard budget message (lines 328-331). -/
def runLoop (max_steps : Nat) (oracles : Nat → RunIterOracle) :
    Nat → Nat → FalcoState → RunOutcome
  | _, 0, st =>
    RunOutcome.response (FalcoAgent.output st (budgetMsg max_steps) false)
  | k, fuel + 1, _st =>
    match (oracles k).stepCall with
    | StepCallEffect.raisedDuring stR e => RunOutcome.raised stR e
    | StepCallEffect.ret stA out =>
      match out with
      | none => runLoop max_steps oracles (k + 1) fuel stA
      | some c =>
        if c.success then
          if (oracles k).val_is_valid then
            RunOutcome.response (FalcoAgent.output stA c.answer c.success)
          else
            runLoop max_steps oracles (k + 1) fuel
              (validationFailState stA c (oracles k).val_reason)
        else
          RunOutcome.response (FalcoAgent.output stA c.answer false)

/-- `FalcoAgent._run` loops over at most `max_steps` steps (agent.py
line 297). -/
def falcoRunModel (max_steps : Nat) (oracles : Nat → RunIterOracle)
    (st : FalcoState) : RunOutcome :=
  runLoop max_steps oracles 0 max_steps st

/-- `FalcoAgent.run` (agent.py lines 276-285): return `_run`'s response;
on any exception, return a failed response built from the exception text
and a traceback `tb` when `raise_condition` is `NEVER`, else re-raise. -/
def FalcoAgent.run (raise_condition : RaiseCondition) (tb : String)
    (runOutcome : RunOutcome) : RunOutcome :=
  match runOutcome with
  | RunOutcome.response r => RunOutcome.response r
  | RunOutcome.raised stR e =>
    match raise_condition with
    | RaiseCondition.never =>
      RunOutcome.response
        (FalcoAgent.output stR
          ("Failed due to " ++ e.describe ++ ": " ++ tb) false)
    | _ => RunOutcome.raised stR e

/-- Appending a result to the last step appends it to the flattened
result list. -/
theorem resultsOf_appendToLast (result : FalcoStatus) :
    ∀ l : List AgentStep,
      resultsOf (appendToLast result l) = resultsOf l ++ [result]
  | [] => by simp [appendToLast, resultsOf]
  | [s] => by simp [appendToLast, resultsOf]
  | s :: s2 :: rest => by
    simp only [appendToLast, resultsOf, resultsOf_appendToLast result (s2 :: rest),
      List.append_assoc]

/-- `add_step` makes its argument the most recently recorded result. -/
theorem last_result_add_step (t : FalcoTrajectoryHistory) (result : FalcoStatus) :
    (t.add_step result).last_result = some result := by
  simp [FalcoTrajectoryHistory.last_result, FalcoTrajectoryHistory.add_step,
    resultsOf_appendToLast, List.getLast?_concat]

/-- Claim C7: handling of a completion decision by the `_run` loop.  If
the step call returns decision `c`: a failure decision ends the run
immediately as failed with the decision answer; a success decision
accepted by the validator ends the run as succeeded with the decision
answer; a success decision rejected by the validator does not end the
run — the loop continues on the remaining budget from a state whose most
recently recorded trajectory entry is a failed step carrying the
validator's reason. -/
theorem run_completion_decision_handling (max_steps : Nat)
    (oracles : Nat → RunIterOracle) (k fuel : Nat) (st stA : FalcoState)
    (c : CompletionAction)
    (h : (oracles k).stepCall = StepCallEffect.ret stA (some c)) :
    (c.success = false →
      runLoop max_steps oracles k (fuel + 1) st =
        RunOutcome.response (FalcoAgent.output stA c.answer false)) ∧
    (c.success = true → (oracles k).val_is_valid = true →
      runLoop max_steps oracles k (fuel + 1) st =
        RunOutcome.response (FalcoAgent.output stA c.answer c.success)) ∧
    (c.success = true → (oracles k).val_is_valid = false →
      runLoop max_steps oracles k (fuel + 1) st =
        runLoop max_steps oracles (k + 1) fuel
          (validationFailState stA c (oracles k).val_reason) ∧
      (validationFailState stA c (oracles k).val_reason).trajectory.last_result =
        some { input := BaseAction.completion c
               output := none
               success := false
               message := "Final validation failed: " ++
                 (oracles k).val_reason ++ ". Continuing..."
               should_rerun_step_agent := false }) := by
  refine ⟨fun hf => ?_, fun hs hv => ?_, fun hs hv => ⟨?_, ?_⟩⟩
  · simp [runLoop, h, hf]
  · simp [runLoop, h, hs, hv]
  · simp [runLoop, h, hs, hv]
  · exact last_result_add_step stA.trajectory _

/-- Completion decision of the C7 witness. -/
def witDecision : CompletionAction := ⟨true, "the price is 42"⟩

/-- Oracle stream of the C7 witness: the step call returns the success
decision `witDecision`, which the validator rejects with a reason. -/
def witOraclesC7 : Nat → RunIterOracle :=
  fun _ =>
    { stepCall := StepCallEffect.ret witState (some witDecision)
      val_is_valid := false
      val_reason := "answer not shown on the page" }

/-- Witness for C7: at the concrete oracle stream, the rejected success
decision makes the loop continue with the validator's reason recorded as
a failed step. -/
theorem run_completion_decision_handling_witness :
    ((witOraclesC7 0).stepCall = StepCallEffect.ret witState (some witDecision)) ∧
    (witDecision.success = true → (witOraclesC7 0).val_is_valid = false →
      runLoop 5 witOraclesC7 0 (3 + 1) witState =
        runLoop 5 witOraclesC7 (0 + 1) 3
          (validationFailState witState witDecision (witOraclesC7 0).val_reason) ∧
      (validationFailState witState witDecision
          (witOraclesC7 0).val_reason).trajectory.last_result =
        some { input := BaseAction.completion witDecision
               output := none
               success := false
               message := "Final validation failed: " ++
                 (witOraclesC7 0).val_reason ++ ". Continuing..."
               should_rerun_step_agent := false }) :=
  ⟨rfl,
    (run_completion_decision_handling 5 witOraclesC7 0 3 witState witState
      witDecision rfl).2.2⟩

/-- An `_run` loop iteration that neither ends the run nor raises: the
step call returned `None`, or it returned a success decision that the
validator rejected. -/
def RunIterOracle.nonTerminating (o : RunIterOracle) : Prop :=
  (∃ st, o.stepCall = StepCallEffect.ret st none) ∨
  (∃ st c, o.stepCall = StepCallEffect.ret st (some c) ∧
    c.success = true ∧ o.val_is_valid = false)

/-- If every consulted iteration is non-terminating, the loop exhausts
its fuel and returns the failed budget response. -/
theorem runLoop_nonterminating (max_steps : Nat)
    (oracles : Nat → RunIterOracle) :
    ∀ fuel k st, (∀ i, i < k + fuel → (oracles i).nonTerminating) →
      ∃ stF, runLoop max_steps oracles k fuel st =
        RunOutcome.response (FalcoAgent.output stF (budgetMsg max_steps) false)
  | 0, k, st, _ => ⟨st, rfl⟩
  | fuel + 1, k, st, h => by
    have hk : (oracles k).nonTerminating := h k (by omega)
    rcases hk with ⟨stA, hret⟩ | ⟨stA, c, hret, hs, hv⟩
    · have ih := runLoop_nonterminating max_steps oracles fuel (k + 1) stA
        (fun i hi => h i (by omega))
      rcases ih with ⟨stF, hF⟩
      exact ⟨stF, by simp [runLoop, hret, hF]⟩
    · have ih := runLoop_nonterminating max_steps oracles fuel (k + 1)
        (validationFailState stA c (oracles k).val_reason)
        (fun i hi => h i (by omega))
      rcases ih with ⟨stF, hF⟩
      exact ⟨stF, by simp [runLoop, hret, hs, hv, hF]⟩

/-- The loop only consults the oracles of its remaining iterations. -/
theorem runLoop_congr (max_steps : Nat)
    (oracles oracles2 : Nat → RunIterOracle) :
    ∀ fuel k st, (∀ i, i < k + fuel → oracles i = oracles2 i) →
      runLoop max_steps oracles k fuel st =
        runLoop max_steps oracles2 k fuel st
  | 0, _, _, _ => rfl
  | fuel + 1, k, st, h => by
    have hk : oracles k = oracles2 k := h k (by omega)
    have ih : ∀ stN, runLoop max_steps oracles (k + 1) fuel stN =
        runLoop max_steps oracles2 (k + 1) fuel stN :=
      fun stN => runLoop_congr max_steps oracles oracles2 fuel (k + 1) stN
        (fun i hi => h i (by omega))
    simp only [runLoop, hk]
    cases hsc : (oracles2 k).stepCall with
    | raisedDuring stR e => rfl
    | ret stA out =>
      cases out with
      | none => exact ih stA
      | some c =>
        by_cases hs : c.success
        · by_cases hv : (oracles2 k).val_is_valid
          · simp [hs, hv]
          · simp [hs, hv, ih]
        · simp [hs]

/-- Claim C8: when no iteration of the `_run` loop ever ends the run
(no terminating completion decision and no raise), the loop runs for at
most the configured `max_steps` iterations — its result only depends on
the first `max_steps` oracles — after which the run terminates as
failed with a response whose `success` is false and whose answer is the
standard message citing the step budget. -/
theorem run_step_budget_exhaustion (max_steps : Nat)
    (oracles : Nat → RunIterOracle) (st : FalcoState)
    (h : ∀ i, i < max_steps → (oracles i).nonTerminating) :
    (∃ stF, falcoRunModel max_steps oracles st =
      RunOutcome.response (FalcoAgent.output stF (budgetMsg max_steps) false) ∧
      (FalcoAgent.output stF (budgetMsg max_steps) false).success = false ∧
      (FalcoAgent.output stF (budgetMsg max_steps) false).answer =
        budgetMsg max_steps) ∧
    (∀ oracles2 : Nat → RunIterOracle,
      (∀ i, i < max_steps → oracles i = oracles2 i) →
      falcoRunModel max_steps oracles st = falcoRunModel max_steps oracles2 st) := by
  constructor
  · rcases runLoop_nonterminating max_steps oracles max_steps 0 st
      (fun i hi => h i (by omega)) with ⟨stF, hF⟩
    exact ⟨stF, hF, rfl, rfl⟩
  · intro oracles2 heq
    exact runLoop_congr max_steps oracles oracles2 max_steps 0 st
      (fun i hi => heq i (by omega))

/-- Oracle stream of the C8 witness: every step call returns `None` (no
completion decision at all). -/
def witOraclesC8 : Nat → RunIterOracle :=
  fun _ =>
    { stepCall := StepCallEffect.ret witState none
      val_is_valid := true
      val_reason := "" }

/-- Witness for C8: with a budget of 5 steps and an agent that never
emits a completion decision, the run ends as failed citing the 5-step
budget. -/
theorem run_step_budget_exhaustion_witness :
    (∀ i, i < 5 → (witOraclesC8 i).nonTerminating) ∧
    ((∃ stF, falcoRunModel 5 witOraclesC8 witState =
      RunOutcome.response (FalcoAgent.output stF (budgetMsg 5) false) ∧
      (FalcoAgent.output stF (budgetMsg 5) false).success = false ∧
      (FalcoAgent.output stF (budgetMsg 5) false).answer = budgetMsg 5) ∧
    (∀ oracles2 : Nat → RunIterOracle,
      (∀ i, i < 5 → witOraclesC8 i = oracles2 i) →
      falcoRunModel 5 witOraclesC8 witState = falcoRunModel 5 oracles2 witState)) :=
  ⟨fun _ _ => Or.inl ⟨witState, rfl⟩,
    run_step_budget_exhaustion 5 witOraclesC8 witState
      (fun _ _ => Or.inl ⟨witState, rfl⟩)⟩

/-- Claim C9: with `raise_condition = NEVER`, `FalcoAgent.run` never
propagates an exception — on every `_run` outcome it returns a response,
and when `_run` raised, that response is the failed response whose
answer describes the exception (and the traceback `tb`), with
`success = false`. -/
theorem run_never_converts_exceptions (tb : String) (outcome : RunOutcome)
    (stR : FalcoState) (e : PyRaised) :
    (∃ r, FalcoAgent.run RaiseCondition.never tb outcome = RunOutcome.response r) ∧
    FalcoAgent.run RaiseCondition.never tb (RunOutcome.raised stR e) =
      RunOutcome.response
        (FalcoAgent.output stR
          ("Failed due to " ++ e.describe ++ ": " ++ tb) false) ∧
    (FalcoAgent.output stR
        ("Failed due to " ++ e.describe ++ ": " ++ tb) false).success = false := by
  refine ⟨?_, rfl, rfl⟩
  rcases outcome with r | ⟨stX, eX⟩
  · exact ⟨r, rfl⟩
  · exact ⟨_, rfl⟩
